import Mathlib

/-!
Verification of the ld-relay core specification against a shallow embedding
of the repository's source.

Each section embeds the data model and operations of one part of the code
(big-segment store and synchronizer, tracking-pixel handler, status-endpoint
key masking, credential extraction, environment-context lifecycle, route
table, HTTP proxy configuration) and proves or refutes the corresponding
claims.  Definitions are translated from the Go source under src/; where the
deciding code is not under src/ (only its tests or callers are), the
definition is modelled from the specification and marked as such in its doc
comment.
-/

/- ------------------------------------------------------------------
   Big segments: patches and the store (src/internal/core/bigsegments).
   ------------------------------------------------------------------ -/

/-- A big-segment patch, with the fields exercised by the patch builder in
src/internal/core/bigsegments/sync_test.go: segment key, version,
previousVersion, and the include/exclude membership deltas. -/
structure bigSegmentPatch where
  segmentKey : String
  version : String
  previousVersion : String
  addIncludes : List String
  addExcludes : List String
  removeIncludes : List String
  removeExcludes : List String
deriving DecidableEq, Repr

/-- The big-segment store's applyPatch, translated from
bigSegmentStoreMock.applyPatch in src/internal/core/bigsegments/sync_test.go
(lines 29-41): if the store's cursor differs from the patch's
previousVersion the patch is not applied (result false) and the cursor is
unchanged; otherwise the patch's version becomes the new cursor (result
true).  The Go method never returns a non-nil error, so the error result is
omitted. -/
def applyPatch (cursor : String) (patch : bigSegmentPatch) : Bool × String :=
  if cursor ≠ patch.previousVersion then
    (false, cursor)
  else
    (true, patch.version)

/-- Submitting a sequence of patches to the store, one applyPatch call per
patch.  Returns the final cursor together with the list of patches that
were applied (those for which applyPatch returned true), in order. -/
def applyAll : String → List bigSegmentPatch → String × List bigSegmentPatch
  | cursor, [] => (cursor, [])
  | cursor, p :: ps =>
    let r := applyPatch cursor p
    let rest := applyAll r.2 ps
    (rest.1, if r.1 then p :: rest.2 else rest.2)

theorem applyPatch_match (c : String) (p : bigSegmentPatch)
    (h : p.previousVersion = c) : applyPatch c p = (true, p.version) := by
  simp [applyPatch, h]

theorem applyPatch_mismatch (c : String) (p : bigSegmentPatch)
    (h : p.previousVersion ≠ c) : applyPatch c p = (false, c) := by
  have h2 : ¬c = p.previousVersion := fun he => h he.symm
  simp [applyPatch, h2]

/-- Claim C1: over any sequence of patches submitted via applyPatch, a patch
is applied iff its previousVersion equals the store's cursor at the time of
the call (otherwise the store is unchanged and "not applied" is returned),
an applied patch's version becomes the new cursor, and the final cursor
equals the version of the last applied patch (or the initial cursor when no
patch was applied). -/
theorem c1_applyPatch_cursor_chain :
    (∀ c (p : bigSegmentPatch),
      applyPatch c p =
        if p.previousVersion = c then (true, p.version) else (false, c))
    ∧ ∀ c (ps : List bigSegmentPatch),
      (applyAll c ps).1 =
        (((applyAll c ps).2.getLast?).map bigSegmentPatch.version).getD c := by
  constructor
  · intro c p
    by_cases h : p.previousVersion = c
    · rw [if_pos h, applyPatch_match c p h]
    · rw [if_neg h, applyPatch_mismatch c p h]
  · intro c ps
    induction ps generalizing c with
    | nil => rfl
    | cons p ps ih =>
      by_cases h : p.previousVersion = c
      · show (applyAll c (p :: ps)).1 = _
        simp only [applyAll, applyPatch_match c p h]
        have ihp := ih p.version
        cases hrest : (applyAll p.version ps).2 with
        | nil =>
          simp only [hrest] at ihp
          simpa [hrest] using ihp
        | cons q qs =>
          simp only [hrest] at ihp
          simpa [hrest, List.getLast?_cons_cons] using ihp
      · show (applyAll c (p :: ps)).1 = _
        simp only [applyAll, applyPatch_mismatch c p h]
        simpa using ih c

/- ------------------------------------------------------------------
   Big-segment synchronizer (spec section 4.6).  The synchronizer
   implementation itself is not under src/; only its tests are
   (src/internal/core/bigsegments/sync_test.go), so the poll/stream
   reconciliation loop is modelled from the specification.
   ------------------------------------------------------------------ -/

/-- Modelled from the spec: the synchronizer's handling of one ordered poll
response (spec section 4.6 step 2; the implementation file containing this
loop is not under src/).  Each patch is applied in order; at the first patch
whose previousVersion differs from the current cursor, a warning carrying
the offending previousVersion is produced and the remainder of the list is
discarded.  Returns the advanced cursor, the applied patches, and the
optional warning payload. -/
def applyPollPatches : String → List bigSegmentPatch →
    String × List bigSegmentPatch × Option String
  | cursor, [] => (cursor, [], none)
  | cursor, p :: ps =>
    if p.previousVersion = cursor then
      let r := applyPollPatches p.version ps
      (r.1, p :: r.2.1, r.2.2)
    else
      (cursor, [], some p.previousVersion)

/-- The query string of a poll request, from spec section 4.6 (*Polling*
issues GET pollURI?after=cursor, or no query when the cursor is empty) and
assertPollRequest in src/internal/core/bigsegments/sync_test.go
(lines 71-79). -/
def pollQuery (cursor : String) : String :=
  if cursor = "" then "" else "after=" ++ cursor

/-- The synchronizer's control mode: polling or streaming. -/
inductive SyncMode
  | polling
  | streaming
deriving DecidableEq, Repr

/-- Synchronizer state: current store cursor, control mode, and the number
of times setSynchronizedOn has been recorded. -/
structure SyncState where
  cursor : String
  mode : SyncMode
  syncedCount : Nat
deriving DecidableEq, Repr

/-- An input to the synchronizer: one poll response, or one patch event
received on the stream. -/
inductive SyncEvent
  | pollResponse (patches : List bigSegmentPatch)
  | streamPatch (patch : bigSegmentPatch)

/-- Modelled from the spec: one transition of the synchronizer state machine
(spec section 4.6, steps 2-4; the implementation file is not under src/).
While polling, a non-empty response is applied via applyPollPatches and
polling continues; an empty response records setSynchronizedOn and
transitions to streaming.  While streaming, a patch whose previousVersion
matches the cursor is applied; a mismatching patch is never applied and the
stream is closed, restarting the full cycle from polling with the cursor
unchanged.  Returns the new state, the applied patches, and the optional
warning payload. -/
def syncStep (s : SyncState) (e : SyncEvent) :
    SyncState × List bigSegmentPatch × Option String :=
  match e with
  | .pollResponse ps =>
    match s.mode with
    | .polling =>
      if ps.isEmpty then
        ({ s with mode := .streaming, syncedCount := s.syncedCount + 1 }, [], none)
      else
        let r := applyPollPatches s.cursor ps
        ({ s with cursor := r.1 }, r.2.1, r.2.2)
    | .streaming => (s, [], none)
  | .streamPatch p =>
    match s.mode with
    | .streaming =>
      if p.previousVersion = s.cursor then
        ({ s with cursor := p.version }, [p], none)
      else
        ({ s with mode := .polling }, [], some p.previousVersion)
    | .polling => (s, [], none)

/-- Running the synchronizer over a sequence of events, accumulating every
patch it applied. -/
def runSync (s : SyncState) : List SyncEvent → SyncState × List bigSegmentPatch
  | [] => (s, [])
  | e :: es =>
    let r := syncStep s e
    let rest := runSync r.1 es
    (rest.1, r.2.1 ++ rest.2)

/-- The first patch of the out-of-order poll scenario in
TestSyncSkipsOutOfOrderUpdateFromPoll (sync_test.go lines 174-175):
version "1", previousVersion "". -/
def patch1 : bigSegmentPatch :=
  ⟨"segment.g1", "1", "", ["included1", "included2"],
    ["excluded1", "excluded2"], [], []⟩

/-- The non-matching patch of that scenario (sync_test.go lines 176-177):
version "1x", previousVersion "non-matching-previous-version". -/
def patch1x : bigSegmentPatch :=
  ⟨"segment.g1", "1x", "non-matching-previous-version", ["includedx"],
    ["excludedx"], [], []⟩

/-- The third patch of that scenario (sync_test.go lines 178-179):
version "2", previousVersion "1". -/
def patch1y : bigSegmentPatch :=
  ⟨"segment.g1", "2", "1", ["includedy"], ["excludedy"], [], []⟩

/-- The stream patch applied after reconnect (sync_test.go lines 251-252):
version "2", previousVersion "1". -/
def patch2 : bigSegmentPatch :=
  ⟨"segment.g1", "2", "1", [], [], ["included1"], ["excluded1"]⟩

/-- The non-matching stream patch of
TestSyncSkipsOutOfOrderUpdateFromStreamAndRestartsStream (sync_test.go
lines 249-250): version "2", previousVersion "non-matching-previous-version". -/
def patch2x : bigSegmentPatch :=
  ⟨"segment.g1", "2", "non-matching-previous-version", [], [],
    ["included1"], ["excluded1"]⟩

theorem applyPollPatches_isPrefix (c : String) (ps : List bigSegmentPatch) :
    (applyPollPatches c ps).2.1 <+: ps := by
  induction ps generalizing c with
  | nil => exact List.nil_prefix
  | cons p ps ih =>
    by_cases h : p.previousVersion = c
    · obtain ⟨t, ht⟩ := ih p.version
      exact ⟨t, by simp [applyPollPatches, h, ht]⟩
    · rw [show (applyPollPatches c (p :: ps)).2.1 = [] by
        simp [applyPollPatches, h]]
      exact List.nil_prefix

/-- Claim C2: a poll response is applied in order up to (and excluding) the
first patch whose previousVersion does not equal the current cursor; at that
point the warning carries the offending previousVersion and the remainder of
the list is discarded (the applied patches always form an order-preserving
prefix of the response); on the test scenario, only the v=1 patch of
[patch1, patch1x, patch1y] is applied, the warning carries
"non-matching-previous-version", and the next poll uses after=1. -/
theorem c2_poll_skips_out_of_order :
    (∀ c (p : bigSegmentPatch) rest, p.previousVersion ≠ c →
      applyPollPatches c (p :: rest) = (c, [], some p.previousVersion))
    ∧ (∀ c (p : bigSegmentPatch) rest, p.previousVersion = c →
      applyPollPatches c (p :: rest) =
        ((applyPollPatches p.version rest).1,
          p :: (applyPollPatches p.version rest).2.1,
          (applyPollPatches p.version rest).2.2))
    ∧ (∀ c (ps : List bigSegmentPatch), (applyPollPatches c ps).2.1 <+: ps)
    ∧ applyPollPatches "" [patch1, patch1x, patch1y] =
        ("1", [patch1], some "non-matching-previous-version")
    ∧ pollQuery "1" = "after=1" := by
  refine ⟨fun c p rest h => by simp [applyPollPatches, h],
    fun c p rest h => by simp [applyPollPatches, h],
    applyPollPatches_isPrefix, by decide, rfl⟩

/-- Claim C2 witness: the general clauses of c2_poll_skips_out_of_order
instantiated at the scenario's cursor "1" and the non-matching patch. -/
theorem c2_poll_skips_out_of_order_witness :
    patch1x.previousVersion ≠ "1"
    ∧ applyPollPatches "1" [patch1x, patch1y] =
        ("1", [], some "non-matching-previous-version") :=
  ⟨by decide, c2_poll_skips_out_of_order.1 "1" patch1x [patch1y] (by decide)⟩

/-- Claim C3: a stream patch whose previousVersion does not match the cursor
is never applied; the synchronizer closes the stream and restarts the cycle
from polling with the cursor unchanged; and on the test scenario's event
trace the mismatching patch2x is never applied while the subsequent matching
patch2 is applied after the reconnect, ending with cursor "2". -/
theorem c3_stream_mismatch_restarts :
    (∀ (s : SyncState) (p : bigSegmentPatch), s.mode = .streaming →
      p.previousVersion ≠ s.cursor →
      syncStep s (.streamPatch p) =
        ({ s with mode := .polling }, [], some p.previousVersion))
    ∧ (runSync ⟨"", .polling, 0⟩
        [.pollResponse [patch1], .pollResponse [], .streamPatch patch2x]).1 =
        ⟨"1", .polling, 1⟩
    ∧ patch2x ∉ (runSync ⟨"", .polling, 0⟩
        [.pollResponse [patch1], .pollResponse [], .streamPatch patch2x,
          .pollResponse [], .streamPatch patch2]).2
    ∧ (runSync ⟨"", .polling, 0⟩
        [.pollResponse [patch1], .pollResponse [], .streamPatch patch2x,
          .pollResponse [], .streamPatch patch2]).2 = [patch1, patch2]
    ∧ (runSync ⟨"", .polling, 0⟩
        [.pollResponse [patch1], .pollResponse [], .streamPatch patch2x,
          .pollResponse [], .streamPatch patch2]).1.cursor = "2" := by
  refine ⟨fun s p hm hp => ?_, by decide, by decide, by decide, by decide⟩
  cases s with
  | mk cursor mode syncedCount =>
    cases hm
    simp [syncStep, hp]

/-- Claim C3 witness: the general clause of c3_stream_mismatch_restarts
instantiated at the streaming state with cursor "1" and the mismatching
stream patch patch2x. -/
theorem c3_stream_mismatch_restarts_witness :
    (⟨"1", .streaming, 1⟩ : SyncState).mode = .streaming
    ∧ patch2x.previousVersion ≠ (⟨"1", .streaming, 1⟩ : SyncState).cursor
    ∧ syncStep ⟨"1", .streaming, 1⟩ (.streamPatch patch2x) =
        (⟨"1", .polling, 1⟩, [], some "non-matching-previous-version") :=
  ⟨rfl, by decide,
    c3_stream_mismatch_restarts.1 ⟨"1", .streaming, 1⟩ patch2x rfl (by decide)⟩

/- ------------------------------------------------------------------
   Tracking-pixel event ingestion (getEventsImage in src/unnamed/part_000).
   ------------------------------------------------------------------ -/

/-- Go's http.Header.Get: the value of the first header with the given
name, or "" when absent.  Headers are modelled as an ordered list of
name-value pairs (canonicalization is irrelevant here since all lookups use
the exact spelling used when adding). -/
def headerGet (hs : List (String × String)) (k : String) : String :=
  ((hs.find? fun h => h.1 = k).map Prod.snd).getD ""

/-- Modelled from the spec: the events package's EventSchemaHeader constant
(the package is not under src/); the spec and the claim name it
X-LaunchDarkly-Event-Schema. -/
def EventSchemaHeader : String := "X-LaunchDarkly-Event-Schema"

/-- Modelled from the spec: the events package's current summary-events
schema version constant (the package is not under src/).  The claims depend
only on the synthesized request carrying this constant, not on its value. -/
def SummaryEventsSchemaVersion : Nat := 3

/-- The request synthesized by getEventsImage and handed to the JS events
handler: method, headers in the order they were added, and the raw base64
payload passed to base64.StdEncoding.DecodeString (the decoding itself is
the standard library's, external to the repository). -/
structure SynthReq where
  method : String
  headers : List (String × String)
  bodyB64 : String
deriving DecidableEq, Repr

/-- The body written by getEventsImage: the 1x1 transparent GIF
(browser.Transparent1PixelImageData) or a JSON error message
(util.ErrorJSONMsg). -/
inductive PixelBody
  | gif
  | errorJSON (msg : String)
deriving DecidableEq, Repr

/-- The HTTP response written by getEventsImage. -/
structure PixelResponse where
  status : Nat
  contentType : String
  body : PixelBody
deriving DecidableEq, Repr

/-- The tracking-pixel handler, translated from getEventsImage in
src/unnamed/part_000 (lines 16-46).  hasEventDispatcher and
hasJSEventsHandler stand for GetEventDispatcher() and
GetHandler(JavaScriptSDKEventsEndpoint) being non-nil.  reqHeaders are the
incoming request's headers; note that, as in the source, the synthesized
request's X-LaunchDarkly-User-Agent header is copied from the freshly
created request itself (which has no such header yet), not from the
incoming request. -/
def getEventsImage (hasEventDispatcher hasJSEventsHandler : Bool)
    (reqHeaders : List (String × String)) (d : String) :
    PixelResponse × Option SynthReq :=
  if !hasEventDispatcher then
    (⟨503, "", .errorJSON "Event proxy is not enabled for this environment"⟩,
      none)
  else if !hasJSEventsHandler then
    (⟨503, "",
        .errorJSON "Event proxy for browser clients is not enabled for this environment"⟩,
      none)
  else
    let _ := reqHeaders
    let synth : Option SynthReq :=
      if d ≠ "" then
        let h1 : List (String × String) :=
          [] ++ [("Content-Type", "application/json")]
        let h2 := h1 ++
          [("X-LaunchDarkly-User-Agent", headerGet h1 "X-LaunchDarkly-User-Agent")]
        let h3 := h2 ++ [(EventSchemaHeader, toString SummaryEventsSchemaVersion)]
        some ⟨"POST", h3, d⟩
      else none
    (⟨200, "image/gif", .gif⟩, synth)

/-- The incoming tracking-pixel request of the failing input: the browser
sent a user-agent. -/
def pixelReqHeaders : List (String × String) :=
  [("X-LaunchDarkly-User-Agent", "test-agent"), ("User-Agent", "Mozilla/5.0")]

/-- Claim C4 (code bug): at a concrete tracking-pixel request with a
non-empty d parameter and a user-agent, the handler does return the GIF and
the synthesized POST does carry Content-Type application/json and the
schema-version header, but its X-LaunchDarkly-User-Agent header is the
empty string copied from the fresh request itself, not the incoming
request's user-agent; and the GIF is returned for every input once the
dispatcher exists. -/
theorem c4_pixel_user_agent_not_forwarded :
    (getEventsImage true true pixelReqHeaders "eyJraW5kIjoiaWRlbnRpZnkifQ==").1 =
      ⟨200, "image/gif", .gif⟩
    ∧ (getEventsImage true true pixelReqHeaders "eyJraW5kIjoiaWRlbnRpZnkifQ==").2 =
      some ⟨"POST",
        [("Content-Type", "application/json"),
          ("X-LaunchDarkly-User-Agent", ""),
          ("X-LaunchDarkly-Event-Schema", "3")],
        "eyJraW5kIjoiaWRlbnRpZnkifQ=="⟩
    ∧ headerGet
        (((getEventsImage true true pixelReqHeaders
            "eyJraW5kIjoiaWRlbnRpZnkifQ==").2.map SynthReq.headers).getD [])
        "Content-Type" = "application/json"
    ∧ headerGet
        (((getEventsImage true true pixelReqHeaders
            "eyJraW5kIjoiaWRlbnRpZnkifQ==").2.map SynthReq.headers).getD [])
        EventSchemaHeader = toString SummaryEventsSchemaVersion
    ∧ headerGet
        (((getEventsImage true true pixelReqHeaders
            "eyJraW5kIjoiaWRlbnRpZnkifQ==").2.map SynthReq.headers).getD [])
        "X-LaunchDarkly-User-Agent"
      ≠ headerGet pixelReqHeaders "X-LaunchDarkly-User-Agent"
    ∧ ∀ (hs : List (String × String)) (d : String),
        (getEventsImage true true hs d).1 = ⟨200, "image/gif", .gif⟩ := by
  exact ⟨rfl, rfl, rfl, rfl, by decide, fun hs d => rfl⟩

/- ------------------------------------------------------------------
   Status endpoint key masking (spec section 6; DoStatusEndpointTest in
   src/unnamed/part_002 pins the masked output).
   ------------------------------------------------------------------ -/

/-- Whether a character is a hexadecimal digit. -/
def isHexChar (c : Char) : Bool :=
  c.isDigit || ('a' ≤ c && c ≤ 'f') || ('A' ≤ c && c ≤ 'F')

/-- Replace a hexadecimal digit by the mask character, leave every other
character (such as a hyphen) unchanged. -/
def starHexChar (c : Char) : Char :=
  if isHexChar c then '*' else c

/-- Modelled from the spec: the status endpoint's key-masking function is
not under src/.  The spec (section 6) says keys are redacted except for a
prefix and the last seven characters, but the expected outputs pinned by
DoStatusEndpointTest (src/unnamed/part_002 lines 170-184), such as
sdk-********-****-****-****-*******e42d0, keep the first four characters
and the last five, star every hexadecimal digit in between, and leave
hyphens in place; keys of at most eight characters are returned unchanged.
The model follows the test. -/
def maskKeyChars (l : List Char) : List Char :=
  if 8 < l.length then
    l.take 4 ++ ((l.drop 4).take (l.length - 9)).map starHexChar
      ++ l.drop (l.length - 5)
  else l

/-- String form of maskKeyChars. -/
def obscureKey (s : String) : String :=
  String.mk (maskKeyChars s.data)

/-- The first n characters of a string. -/
def strTake (s : String) (n : Nat) : String :=
  String.mk (s.data.take n)

/-- The last n characters of a string. -/
def strTakeRight (s : String) (n : Nat) : String :=
  String.mk (s.data.drop (s.data.length - n))

/-- One environment's entry in the GET /status response body, restricted to
the fields the claim is about. -/
structure EnvStatusEntry where
  sdkKey : String
  mobileKey : Option String
  envId : Option String
deriving DecidableEq, Repr

/-- Modelled from the spec: the construction of one environment's status
entry (spec section 6; the status handler is not under src/): the server
SDK key and, when present, the mobile key are masked with obscureKey, and
the environment ID is echoed verbatim, as pinned by DoStatusEndpointTest
(src/unnamed/part_002 lines 170-186). -/
def statusEnvEntry (sdkKey : String) (mobileKey : Option String)
    (envId : Option String) : EnvStatusEntry :=
  ⟨obscureKey sdkKey, mobileKey.map obscureKey, envId⟩

theorem maskKeyChars_length (l : List Char) :
    (maskKeyChars l).length = l.length := by
  unfold maskKeyChars
  by_cases h : 8 < l.length
  · rw [if_pos h]
    simp only [List.length_append, List.length_take, List.length_map,
      List.length_drop]
    omega
  · rw [if_neg h]

theorem maskKeyChars_take (l : List Char) (h : 8 < l.length) :
    (maskKeyChars l).take 4 = l.take 4 := by
  unfold maskKeyChars
  rw [if_pos h, List.append_assoc]
  exact List.take_left' (by simp [List.length_take]; omega)

theorem maskKeyChars_suffix (l : List Char) (h : 8 < l.length) :
    (maskKeyChars l).drop ((maskKeyChars l).length - 5) =
      l.drop (l.length - 5) := by
  rw [maskKeyChars_length]
  unfold maskKeyChars
  rw [if_pos h]
  exact List.drop_left' (by
    simp [List.length_append, List.length_take, List.length_map,
      List.length_drop]
    omega)

/-- Claim C5 counterexample: at the three-environment status test's main
SDK key, the status entry's masked key is exactly the value pinned by
DoStatusEndpointTest, and its last seven characters differ from the key's
last seven characters (the sixth- and seventh-last characters are starred),
so the response does not leave the last seven characters of the key
unredacted. -/
theorem c5_last_seven_counterexample :
    (statusEnvEntry "sdk-98e2b0b4-2688-4a59-9810-1e0e3d7e42d0" none
        (some "507f1f77bcf86cd799439011")).sdkKey =
      "sdk-********-****-****-****-*******e42d0"
    ∧ strTakeRight
        (statusEnvEntry "sdk-98e2b0b4-2688-4a59-9810-1e0e3d7e42d0" none
          (some "507f1f77bcf86cd799439011")).sdkKey 7 ≠
      strTakeRight "sdk-98e2b0b4-2688-4a59-9810-1e0e3d7e42d0" 7 := by
  constructor
  · rfl
  · decide

/-- Claim C5 as amended: for every configured environment, the GET /status
entry redacts the server SDK key (and the mobile key when present) except
for a prefix of four characters and the last five characters, starring the
hexadecimal digits in between, while the environment ID is echoed
verbatim. -/
theorem c5_status_key_masking (k : String) (mobileKey : Option String)
    (envId : Option String) :
    (statusEnvEntry k mobileKey envId).envId = envId
    ∧ (statusEnvEntry k mobileKey envId).sdkKey = obscureKey k
    ∧ (statusEnvEntry k mobileKey envId).mobileKey = mobileKey.map obscureKey
    ∧ (8 < k.data.length →
        strTake (obscureKey k) 4 = strTake k 4
        ∧ strTakeRight (obscureKey k) 5 = strTakeRight k 5) := by
  refine ⟨rfl, rfl, rfl, fun h => ⟨?_, ?_⟩⟩
  · show String.mk ((maskKeyChars k.data).take 4) = String.mk (k.data.take 4)
    rw [maskKeyChars_take k.data h]
  · show String.mk
        ((maskKeyChars k.data).drop ((maskKeyChars k.data).length - 5)) =
      String.mk (k.data.drop (k.data.length - 5))
    rw [maskKeyChars_suffix k.data h]

/-- Claim C5 witness: c5_status_key_masking instantiated at the status
test's main SDK key and browser environment ID, with the length hypothesis
discharged concretely. -/
theorem c5_status_key_masking_witness :
    8 < ("sdk-98e2b0b4-2688-4a59-9810-1e0e3d7e42d0" : String).data.length
    ∧ strTakeRight
        (obscureKey "sdk-98e2b0b4-2688-4a59-9810-1e0e3d7e42d0") 5 =
      strTakeRight "sdk-98e2b0b4-2688-4a59-9810-1e0e3d7e42d0" 5 :=
  ⟨by decide,
    ((c5_status_key_masking "sdk-98e2b0b4-2688-4a59-9810-1e0e3d7e42d0" none
      (some "507f1f77bcf86cd799439011")).2.2.2 (by decide)).2⟩

/- ------------------------------------------------------------------
   Request credential extraction by SDK kind (src/sdk_kinds.go).
   ------------------------------------------------------------------ -/

/-- The parts of an incoming HTTP request that credential extraction reads:
the headers, and the envId route variable (mux.Vars(req)["envId"], which is
"" when the route has no such segment). -/
structure SDKRequest where
  headers : List (String × String)
  muxVarEnvId : String
deriving DecidableEq, Repr

/-- Whether a character list is five hyphen-separated groups of 8-4-4-4-12
hexadecimal digits. -/
def uuidGroups (l : List Char) : Bool :=
  l.length = 36 &&
    l.enum.all fun ic =>
      if ic.1 = 8 || ic.1 = 13 || ic.1 = 18 || ic.1 = 23 then ic.2 = '-'
      else isHexChar ic.2

/-- Modelled from the spec: the uuidHeaderPattern regular expression
matched against the Authorization header is not under src/.  Per the spec
(section 4.3) a UUID-shaped token is extracted verbatim; a token is modelled
as UUID-shaped when it is five hyphen-separated groups of 8-4-4-4-12 hex
digits, optionally preceded by a three-letter lowercase tag and a hyphen
(the shape of the keys in the repository's tests, such as
sdk-98e2b0b4-2688-4a59-9810-1e0e3d7e42d0). -/
def isUUIDShaped (s : String) : Bool :=
  uuidGroups s.data ||
    match s.data with
    | a :: b :: c :: '-' :: rest =>
      a.isLower && b.isLower && c.isLower && uuidGroups rest
    | _ => false

/-- fetchAuthToken, translated from src/sdk_kinds.go (lines 44-54): the
Authorization header is matched against the UUID pattern; a match is
returned verbatim, otherwise the error is "no valid token found". -/
def fetchAuthToken (req : SDKRequest) : Except String String :=
  let authHdr := headerGet req.headers "Authorization"
  if isUUIDShaped authHdr then .ok authHdr
  else .error "no valid token found"

/-- config.SDKCredential: a tagged credential (config.SDKKey,
config.MobileKey, or config.EnvironmentID). -/
inductive SDKCredential
  | sdkKey (value : String)
  | mobileKey (value : String)
  | environmentID (value : String)
deriving DecidableEq, Repr

/-- The sdkKind tagged value from src/sdk_kinds.go (lines 12-18). -/
inductive sdkKind
  | serverSdk
  | jsClientSdk
  | mobileSdk
deriving DecidableEq, Repr

/-- getSDKCredential, translated from src/sdk_kinds.go (lines 20-42):
server and mobile kinds extract the UUID-shaped Authorization token as an
SDK key or mobile key respectively; the js kind takes the envId route
variable, erroring when it is absent. -/
def sdkKind.getSDKCredential (s : sdkKind) (req : SDKRequest) :
    Except String SDKCredential :=
  match s with
  | .serverSdk =>
    match fetchAuthToken req with
    | .ok value => .ok (.sdkKey value)
    | .error e => .error e
  | .mobileSdk =>
    match fetchAuthToken req with
    | .ok value => .ok (.mobileKey value)
    | .error e => .error e
  | .jsClientSdk =>
    if req.muxVarEnvId = "" then .error "environment ID not found in URL"
    else .ok (.environmentID req.muxVarEnvId)

/-- Modelled from the spec: the HTTP status that the middleware (not under
src/) maps a credential-extraction failure to, per spec section 4.3: 401
for the server and mobile kinds, 404 for the js kind. -/
def credentialFailureStatus : sdkKind → Nat
  | .serverSdk => 401
  | .mobileSdk => 401
  | .jsClientSdk => 404

/-- Claim C6: for every request, server and mobile kinds extract a
UUID-shaped Authorization token verbatim as an SDK key or mobile key, and
its absence yields the error "no valid token found", mapped to 401; the js
kind takes the envId path segment as the credential, and its absence yields
an error, mapped to 404. -/
theorem c6_credential_extraction (req : SDKRequest) :
    (isUUIDShaped (headerGet req.headers "Authorization") = true →
      sdkKind.serverSdk.getSDKCredential req =
        .ok (.sdkKey (headerGet req.headers "Authorization"))
      ∧ sdkKind.mobileSdk.getSDKCredential req =
        .ok (.mobileKey (headerGet req.headers "Authorization")))
    ∧ (isUUIDShaped (headerGet req.headers "Authorization") = false →
      sdkKind.serverSdk.getSDKCredential req = .error "no valid token found"
      ∧ sdkKind.mobileSdk.getSDKCredential req = .error "no valid token found")
    ∧ (req.muxVarEnvId ≠ "" →
      sdkKind.jsClientSdk.getSDKCredential req =
        .ok (.environmentID req.muxVarEnvId))
    ∧ (req.muxVarEnvId = "" →
      sdkKind.jsClientSdk.getSDKCredential req =
        .error "environment ID not found in URL")
    ∧ credentialFailureStatus .serverSdk = 401
    ∧ credentialFailureStatus .mobileSdk = 401
    ∧ credentialFailureStatus .jsClientSdk = 404 := by
  refine ⟨fun h => ?_, fun h => ?_, fun h => ?_, fun h => ?_, rfl, rfl, rfl⟩
  · constructor <;> simp [sdkKind.getSDKCredential, fetchAuthToken, h]
  · constructor <;> simp [sdkKind.getSDKCredential, fetchAuthToken, h]
  · simp [sdkKind.getSDKCredential, h]
  · simp [sdkKind.getSDKCredential, h]

/-- Claim C6 witness: c6_credential_extraction instantiated at a request
carrying a UUID-shaped server SDK key and an envId route variable. -/
theorem c6_credential_extraction_witness :
    isUUIDShaped
      (headerGet
        [("Authorization", "sdk-98e2b0b4-2688-4a59-9810-1e0e3d7e42d0")]
        "Authorization") = true
    ∧ sdkKind.serverSdk.getSDKCredential
        ⟨[("Authorization", "sdk-98e2b0b4-2688-4a59-9810-1e0e3d7e42d0")],
          "507f1f77bcf86cd799439011"⟩ =
      .ok (.sdkKey "sdk-98e2b0b4-2688-4a59-9810-1e0e3d7e42d0")
    ∧ sdkKind.jsClientSdk.getSDKCredential
        ⟨[("Authorization", "sdk-98e2b0b4-2688-4a59-9810-1e0e3d7e42d0")],
          "507f1f77bcf86cd799439011"⟩ =
      .ok (.environmentID "507f1f77bcf86cd799439011") :=
  ⟨by decide,
    ((c6_credential_extraction
      ⟨[("Authorization", "sdk-98e2b0b4-2688-4a59-9810-1e0e3d7e42d0")],
        "507f1f77bcf86cd799439011"⟩).1 (by decide)).1,
    (c6_credential_extraction
      ⟨[("Authorization", "sdk-98e2b0b4-2688-4a59-9810-1e0e3d7e42d0")],
        "507f1f77bcf86cd799439011"⟩).2.2.1 (by decide)⟩

/- ------------------------------------------------------------------
   Environment context lifecycle (src/internal/relayenv/env_context_impl.go).
   ------------------------------------------------------------------ -/

/-- The externally observable outcome of the asynchronous initialization
task launched by NewEnvContext: the recorded initialization error
(readable via GetInitError), how many times the context was pushed to the
ready channel, and whether the process exited. -/
structure InitOutcome where
  initErr : Option String
  readyDeliveries : Nat
  exited : Bool
deriving DecidableEq, Repr

/-- The initialization goroutine of NewEnvContext, translated from
src/internal/relayenv/env_context_impl.go (lines 156-181).  clientErr is
the error returned by clientFactory; readyNonNil states whether a ready
channel was supplied.  The error is recorded in initErr before the
ignore-connection-errors check, so it is recorded even when ignored; with
ignore unset, the task exits the process when exit-on-error is set and
otherwise pushes the context to the ready channel and returns; every other
path falls through to the single ready-channel push at the end. -/
def envInitTask (clientErr : Option String)
    (ignoreConnectionErrors exitOnError readyNonNil : Bool) : InitOutcome :=
  match clientErr with
  | some e =>
    if !ignoreConnectionErrors then
      if exitOnError then ⟨some e, 0, true⟩
      else ⟨some e, if readyNonNil then 1 else 0, false⟩
    else ⟨some e, if readyNonNil then 1 else 0, false⟩
  | none => ⟨none, if readyNonNil then 1 else 0, false⟩

/-- Claim C7: when client initialization fails with ignore-connection-errors
false and exit-on-error unset, the error is recorded and the context is
pushed to the ready channel; and in every non-exiting outcome the ready
signal is delivered exactly once (given that a ready channel was
supplied). -/
theorem c7_init_ready_exactly_once (e : String)
    (ignoreConnectionErrors exitOnError readyNonNil : Bool)
    (h : readyNonNil = true) :
    (ignoreConnectionErrors = false → exitOnError = false →
      envInitTask (some e) ignoreConnectionErrors exitOnError readyNonNil =
        ⟨some e, 1, false⟩)
    ∧ ∀ (clientErr : Option String),
        (envInitTask clientErr ignoreConnectionErrors exitOnError
            readyNonNil).exited = false →
        (envInitTask clientErr ignoreConnectionErrors exitOnError
            readyNonNil).readyDeliveries = 1 := by
  subst h
  constructor
  · intro h1 h2
    subst h1; subst h2
    rfl
  · intro clientErr hx
    cases clientErr with
    | none => rfl
    | some e2 =>
      cases hi : ignoreConnectionErrors with
      | true => simp [envInitTask, hi]
      | false =>
        cases he : exitOnError with
        | true => rw [envInitTask.eq_def] at hx; simp [hi, he] at hx
        | false => simp [envInitTask, hi, he]

/-- Claim C7 witness: c7_init_ready_exactly_once at a concrete failed
initialization with ignore-connection-errors false and exit-on-error
unset. -/
theorem c7_init_ready_exactly_once_witness :
    (true : Bool) = true
    ∧ envInitTask (some "connection failed") false false true =
      ⟨some "connection failed", 1, false⟩ :=
  ⟨rfl, (c7_init_ready_exactly_once "connection failed" false false true
    rfl).1 rfl rfl⟩

/-- Observable state of an environment context for the Close operation:
whether its env streams have been closed, whether it owns a metrics
environment (metricsManager and metricsEnv both non-nil), and whether that
metrics environment has been removed from the manager. -/
structure EnvContextState where
  envStreamsClosed : Bool
  hasMetrics : Bool
  metricsRemoved : Bool
deriving DecidableEq, Repr

/-- Close, translated from src/internal/relayenv/env_context_impl.go
(lines 251-257): it closes the env streams discarding the error, removes
the metrics environment when the manager and the environment are both
present, and returns nil.  The envStreams.Close and
metricsManager.RemoveEnvironment implementations are not under src/ and
are modelled from the spec: cancellation and removal are idempotent
(spec section 5), so they are modelled as setting their flag. -/
def EnvContextState.Close (c : EnvContextState) :
    EnvContextState × Option String :=
  let c1 := { c with envStreamsClosed := true }
  let c2 := if c1.hasMetrics then { c1 with metricsRemoved := true } else c1
  (c2, none)

/-- Claim C8: closing an environment context returns success (a nil error),
and a second Close is a no-op that also returns success. -/
theorem c8_close_twice_noop (c : EnvContextState) :
    c.Close.2 = none
    ∧ (c.Close.1.Close).2 = none
    ∧ (c.Close.1.Close).1 = c.Close.1 := by
  refine ⟨rfl, rfl, ?_⟩
  by_cases h : c.hasMetrics <;> simp [EnvContextState.Close, h]

/- ------------------------------------------------------------------
   Route table CORS wiring (MakeRouter in src/unnamed/part_002).
   ------------------------------------------------------------------ -/

/-- The subrouters of MakeRouter that install the CORS-methods middleware
(src/unnamed/part_002 lines 38-129). -/
inductive SubRouter
  | goalsRouter
  | clientSideSdkEvalRouter
  | clientSideSdkEvalXRouter
  | clientSidePingRouter
  | clientSideStreamEvalRouter
  | clientSideBulkEventsRouter
  | clientSideDiagnosticEventsRouter
  | clientSideImageEventsRouter
deriving DecidableEq, Repr

/-- One subrouter registration: the subrouter, its path, and the subrouter
from which its mux.CORSMethodMiddleware is constructed. -/
structure RouteGroup where
  router : SubRouter
  routePath : String
  corsMethodsFrom : SubRouter
deriving DecidableEq, Repr

/-- The CORS-installing registrations of MakeRouter, transcribed from
src/unnamed/part_002: every subrouter passes itself to
mux.CORSMethodMiddleware, except that line 124 passes
clientSideBulkEventsRouter for the diagnostic-events subrouter. -/
def makeRouterCORSGroups : List RouteGroup :=
  [⟨.goalsRouter, "/sdk/goals", .goalsRouter⟩,
    ⟨.clientSideSdkEvalRouter, "/sdk/eval/{envId}/", .clientSideSdkEvalRouter⟩,
    ⟨.clientSideSdkEvalXRouter, "/sdk/evalx/{envId}/",
      .clientSideSdkEvalXRouter⟩,
    ⟨.clientSidePingRouter, "/ping/{envId}", .clientSidePingRouter⟩,
    ⟨.clientSideStreamEvalRouter, "/eval/{envId}",
      .clientSideStreamEvalRouter⟩,
    ⟨.clientSideBulkEventsRouter, "/events/bulk/{envId}",
      .clientSideBulkEventsRouter⟩,
    ⟨.clientSideDiagnosticEventsRouter, "/events/diagnostic/{envId}",
      .clientSideBulkEventsRouter⟩,
    ⟨.clientSideImageEventsRouter, "/a/{envId}.gif",
      .clientSideImageEventsRouter⟩]

/-- Claim C9 (code bug): the diagnostic-events route's CORS-methods
middleware is constructed from the bulk-events subrouter, not from its own
subrouter, unlike every other CORS-installing route in MakeRouter. -/
theorem c9_diagnostic_cors_uses_bulk_router :
    makeRouterCORSGroups.find?
        (fun g => g.routePath = "/events/diagnostic/{envId}") =
      some ⟨.clientSideDiagnosticEventsRouter, "/events/diagnostic/{envId}",
        .clientSideBulkEventsRouter⟩
    ∧ SubRouter.clientSideBulkEventsRouter ≠
        SubRouter.clientSideDiagnosticEventsRouter
    ∧ (makeRouterCORSGroups.find?
          (fun g => g.routePath = "/events/bulk/{envId}")).map
        RouteGroup.corsMethodsFrom = some .clientSideBulkEventsRouter
    ∧ makeRouterCORSGroups.all
        (fun g => g.routePath = "/events/diagnostic/{envId}"
          || g.corsMethodsFrom = g.router) = true := by
  refine ⟨by decide, by decide, by decide, by decide⟩

/- ------------------------------------------------------------------
   HTTP proxy configuration (NewHTTPConfig in src/unnamed/part_003).
   ------------------------------------------------------------------ -/

/-- A config.ProxyConfig with the fields NewHTTPConfig reads. -/
structure ProxyConfig where
  url : String
  ntlmAuth : Bool
  user : String
  password : String
  domain : String
  caCertFiles : String
deriving DecidableEq, Repr

/-- Modelled from the spec: url.Parse belongs to Go's net/url, external to
the repository; it rejects URLs containing ASCII control characters and
accepts the rest of the strings relevant here. -/
def urlParseOk (u : String) : Bool :=
  u.data.all fun c => 32 ≤ c.toNat && c.toNat ≠ 127

/-- NewHTTPConfig, translated from src/unnamed/part_003 (lines 27-80):
NTLM proxy authentication without a proxy URL is an error; a proxy URL
that fails to parse is an error; NTLM authentication with an empty
username or password is an error.  The external constructions
(ldntlm.NewNTLMProxyHTTPClientFactory and CreateHTTPConfiguration) are
modelled as succeeding, as the repository's tests observe for the
configurations they exercise. -/
def NewHTTPConfig (p : ProxyConfig) : Except String Unit :=
  if p.url == "" && p.ntlmAuth then
    .error "Cannot specify proxy authentication without a proxy URL"
  else if p.url != "" && !urlParseOk p.url then
    .error ("Invalid proxy URL: " ++ p.url)
  else if p.ntlmAuth then
    if p.user == "" || p.password == "" then
      .error "NTLM proxy authentication requires username and password"
    else .ok ()
  else .ok ()

/-- Whether NewHTTPConfig failed. -/
def isConfigError : Except String Unit → Bool
  | .error _ => true
  | .ok _ => false

/-- Claim C10: NewHTTPConfig errors whenever NTLM proxy authentication is
enabled without a proxy URL, and whenever NTLM proxy authentication is
enabled with an empty username or an empty password; a configuration with
no proxy settings succeeds. -/
theorem c10_http_config_validation (p : ProxyConfig) :
    (p.ntlmAuth = true → p.url = "" →
      NewHTTPConfig p =
        .error "Cannot specify proxy authentication without a proxy URL")
    ∧ (p.ntlmAuth = true → (p.user = "" ∨ p.password = "") →
      isConfigError (NewHTTPConfig p) = true)
    ∧ NewHTTPConfig ⟨"", false, "", "", "", ""⟩ = .ok () := by
  refine ⟨fun hn hu => ?_, fun hn hup => ?_, rfl⟩
  · simp [NewHTTPConfig, hn, hu]
  · by_cases hu : p.url = ""
    · simp [NewHTTPConfig, hn, hu, isConfigError]
    · by_cases hp : urlParseOk p.url
      · have hup2 : (p.user == "" || p.password == "") = true := by
          rcases hup with h | h <;> simp [h]
        simp [NewHTTPConfig, hn, hu, hp, hup2, isConfigError]
      · simp [NewHTTPConfig, hn, hu, hp, isConfigError]

/-- Claim C10 witness: c10_http_config_validation at a configuration
enabling NTLM authentication without a proxy URL. -/
theorem c10_http_config_validation_witness :
    (⟨"", true, "user", "password", "", ""⟩ : ProxyConfig).ntlmAuth = true
    ∧ NewHTTPConfig ⟨"", true, "user", "password", "", ""⟩ =
      .error "Cannot specify proxy authentication without a proxy URL" :=
  ⟨rfl,
    (c10_http_config_validation ⟨"", true, "user", "password", "", ""⟩).1
      rfl rfl⟩
